import Mathlib

set_option linter.unusedVariables false

/-!
Shallow embedding of the ProSA-Ollama processor (`src/proc.rs`, `src/adaptor.rs`).

The processor bridges the ProSA bus to an Ollama HTTP backend.  External
collaborators (the `ollama_rs` client, the `prosa` bus types, the pluggable
adaptor) are modeled as oracle records of functions; the repository's own code
(the error mapping, the settings/auth derivation, the startup provisioning and
the dispatch loop of `internal_run`) is translated function by function, and
the side effects the loop performs (facade calls, telemetry records, replies,
adaptor teardown, bus deregistration) are made explicit as an ordered event
trace.
-/

/-- `OllamaError` (src/proc.rs lines 28-40).  The payload of each variant is
the stringified inner error, since the processor only ever forwards it as
free text. -/
inductive OllamaError where
  | ollama (msg : String)
  | invalidHeaderValue (msg : String)
  | other (msg : String)
deriving DecidableEq, Repr

/-- The bus service-error type (`prosa::core::service::ServiceError`, an
external collaborator).  Modeled with the variants the processor's mapping
produces, plus the bus's generic free-text variant that the spec names as the
target of uncategorized errors. -/
inductive ServiceError where
  | unableToReachService (msg : String)
  | protocolError (msg : String)
  | genericError (msg : String)
deriving DecidableEq, Repr

/-- `impl From<OllamaError> for ServiceError` (src/proc.rs lines 42-52). -/
def serviceErrorOfOllamaError : OllamaError → ServiceError
  | .ollama e => .unableToReachService e
  | .invalidHeaderValue e => .protocolError e
  | .other e => .unableToReachService e

/-- `ProcError::recoverable` for `OllamaError` (src/proc.rs lines 54-62). -/
def OllamaError.recoverable : OllamaError → Bool
  | .ollama _ => false
  | .invalidHeaderValue _ => false
  | .other _ => false

/-! ## Settings and authorization header (src/proc.rs lines 64-140) -/

/-- The standard base64 alphabet used by
`base64::engine::general_purpose::STANDARD`. -/
def base64Alphabet : List Char :=
  "ABCDEFGHIJKLMNOPQRSTUVWXYZabcdefghijklmnopqrstuvwxyz0123456789+/".toList

def b64Char (n : Nat) : Char := base64Alphabet.getD n 'A'

/-- Base64 encoding of a byte sequence, standard alphabet with padding
(`STANDARD.encode`). -/
def base64Chunks : List UInt8 → List Char
  | b0 :: b1 :: b2 :: rest =>
      let n := b0.toNat * 65536 + b1.toNat * 256 + b2.toNat
      b64Char (n / 262144) :: b64Char (n / 4096 % 64) :: b64Char (n / 64 % 64) ::
        b64Char (n % 64) :: base64Chunks rest
  | [b0, b1] =>
      let n := b0.toNat * 65536 + b1.toNat * 256
      [b64Char (n / 262144), b64Char (n / 4096 % 64), b64Char (n / 64 % 64), '=']
  | [b0] =>
      let n := b0.toNat * 65536
      [b64Char (n / 262144), b64Char (n / 4096 % 64), '=', '=']
  | [] => []

/-- The UTF-8 encoding of one character (the standard 1-to-4 byte scheme,
matching `String::as_bytes` on the Rust side). -/
def utf8Bytes (c : Char) : List UInt8 :=
  let n := c.toNat
  if n < 128 then [UInt8.ofNat n]
  else if n < 2048 then
    [UInt8.ofNat (192 + n / 64), UInt8.ofNat (128 + n % 64)]
  else if n < 65536 then
    [UInt8.ofNat (224 + n / 4096), UInt8.ofNat (128 + n / 64 % 64),
     UInt8.ofNat (128 + n % 64)]
  else
    [UInt8.ofNat (240 + n / 262144), UInt8.ofNat (128 + n / 4096 % 64),
     UInt8.ofNat (128 + n / 64 % 64), UInt8.ofNat (128 + n % 64)]

/-- The UTF-8 byte sequence of a string. -/
def stringUtf8Bytes (s : String) : List UInt8 := s.toList.flatMap utf8Bytes

/-- `STANDARD.encode` applied to the UTF-8 bytes of a string. -/
def base64Encode (s : String) : String := String.mk (base64Chunks (stringUtf8Bytes s))

/-- Validity of a header value, as checked by `HeaderValue::from_str` of the
`http` crate: every byte must be horizontal tab or in 32..=255 excluding 127.
Stated on characters; a non-ASCII character only contributes bytes ≥ 128,
which are all legal, so the byte-level and character-level conditions agree. -/
def isValidHeaderChar (c : Char) : Bool :=
  c.toNat == 9 || (32 ≤ c.toNat && c.toNat ≠ 127)

def isValidHeaderValue (s : String) : Bool := s.toList.all isValidHeaderChar

/-- The credentials embedded in the settings URL: `Url::username` (empty when
absent) and `Url::password` (`None` when absent). -/
structure UrlCredentials where
  username : String
  password : Option String
deriving DecidableEq, Repr

/-- The `Authorization` header construction inside
`OllamaProcSettings::get_ollama` (src/proc.rs lines 110-127): if the URL
carries a password, build a Bearer header when the username is empty and a
Basic header (base64 of `username:password`) otherwise; `HeaderValue::from_str`
failures become `OllamaError::InvalidHeaderValue`.  Returns the optional
header value that is installed on the client. -/
def get_ollama_auth (u : UrlCredentials) : Except OllamaError (Option String) :=
  match u.password with
  | none => .ok none
  | some password =>
      let value :=
        if u.username = "" then
          "Bearer " ++ password
        else
          "Basic " ++ base64Encode (u.username ++ ":" ++ password)
      if isValidHeaderValue value then .ok (some value)
      else .error (.invalidHeaderValue value)

/-- A parsed URL (`url::Url`, external collaborator).  Parsing itself is the
external `Url::from_str`; it is passed around as an oracle
`String → Option Url`. -/
structure Url where
  raw : String
deriving DecidableEq, Repr

/-- The hard-coded fallback `Url::from_str("http://localhost:11434").unwrap()`. -/
def localhostUrl : Url := ⟨"http://localhost:11434"⟩

/-- `OllamaProcSettings::default_url` (src/proc.rs lines 82-88).
`ollamaHost` and `ollamaUrl` are the values of the environment variables
`OLLAMA_HOST` and `OLLAMA_URL` (`none` when unset), and `parseUrl` is the
external `Url::from_str` oracle. -/
def default_url (parseUrl : String → Option Url)
    (ollamaHost ollamaUrl : Option String) : Url :=
  ((ollamaHost.or ollamaUrl).bind parseUrl).getD localhostUrl

/-- `OllamaProcSettings::default_services` (src/proc.rs lines 90-92). -/
def default_services : List String := ["ollama"]

/-! ## Backend data model (`ollama_rs` types, external collaborators)

Only the fields the processor actually reads are modeled; payloads it merely
passes through to the adaptor stay abstract type parameters. -/

/-- `ollama_rs::models::LocalModel`; the processor only reads `name`. -/
structure LocalModel where
  name : String
deriving DecidableEq, Repr

/-- `ollama_rs::generation::completion::GenerationResponse`; the dispatch loop
reads `model` and the six optional telemetry fields (u64 counters and
nanosecond durations, modeled as `Nat`). -/
structure GenerationResponse where
  model : String
  response : String
  prompt_eval_count : Option Nat
  eval_count : Option Nat
  total_duration : Option Nat
  load_duration : Option Nat
  prompt_eval_duration : Option Nat
  eval_duration : Option Nat
deriving DecidableEq, Repr

/-- `ollama_rs::generation::embeddings::GenerateEmbeddingsResponse`; the loop
only reads the number of embedding vectors, the vectors themselves stay
abstract. -/
structure GenerateEmbeddingsResponse (Emb : Type) where
  embeddings : List Emb
deriving DecidableEq, Repr

/-- `OllamaRequest` (src/proc.rs lines 143-148).  `GReq`/`EReq` are the opaque
`GenerationRequest` / `GenerateEmbeddingsRequest` payloads. -/
inductive OllamaRequest (GReq EReq : Type) where
  | listLocalModels
  | modelInfo (name : String)
  | generateRequest (request : GReq)
  | generateEmbeddingsRequest (request : EReq)
deriving DecidableEq, Repr

/-- `OllamaResponse` (src/proc.rs lines 151-157).  `MInfo` is the opaque
`ModelInfo` payload, `Chat` the opaque `ChatMessageResponse`. -/
inductive OllamaResponse (MInfo Emb Chat : Type) where
  | localModels (models : List LocalModel)
  | modelInfo (info : MInfo)
  | generateResponse (response : GenerationResponse)
  | generateEmbeddingsResponse (response : GenerateEmbeddingsResponse Emb)
  | chatMessageResponse (response : Chat)

/-- The `ollama_rs::Ollama` client facade (external collaborator): each
operation the processor invokes, as a deterministic oracle whose failures
carry the stringified `ollama_rs` error. -/
structure Ollama (MInfo GReq EReq Emb : Type) where
  list_local_models : Except String (List LocalModel)
  show_model_info : String → Except String MInfo
  generate : GReq → Except String GenerationResponse
  generate_embeddings : EReq → Except String (GenerateEmbeddingsResponse Emb)
  pull_model : String → Bool → Except String String

/-- The pluggable `OllamaAdaptor` (src/adaptor.rs): the mutable adaptor state
`A` is threaded explicitly, so `process_request` and `process_ollama_response`
take and return it; `terminate` is `Adaptor::terminate`. -/
structure OllamaAdaptor (A M MInfo GReq EReq Emb Chat : Type) where
  process_request : A → String → M → A × Except OllamaError (OllamaRequest GReq EReq)
  process_ollama_response :
    A → OllamaResponse MInfo Emb Chat → A × Except OllamaError M
  terminate : A → A

/-! ## Startup model provisioning (src/proc.rs lines 190-212) -/

/-- A backend call made during provisioning. -/
inductive ProvisionEvent where
  | listModels
  | pull (model : String) (allowInsecure : Bool)
deriving DecidableEq, Repr

def ProvisionEvent.isList : ProvisionEvent → Bool
  | .listModels => true
  | .pull _ _ => false

/-- The `'model` loop of `internal_run` (src/proc.rs lines 199-212): walk the
required models in order; a model some local model's `name` equals is skipped,
any other model is pulled with the `allow_insecure` flag; a pull failure
aborts the loop (the `?` on `pull_model`).  Returns the ordered pull calls
actually issued and the loop's outcome. -/
def pullMissingModels (pullModel : String → Bool → Except String String)
    (localModels : List LocalModel) (allowInsecure : Bool) :
    List String → List ProvisionEvent × Except String Unit
  | [] => ([], .ok ())
  | model :: rest =>
      if localModels.any (fun localModel => localModel.name == model) then
        pullMissingModels pullModel localModels allowInsecure rest
      else
        match pullModel model allowInsecure with
        | .ok _status =>
            let r := pullMissingModels pullModel localModels allowInsecure rest
            (.pull model allowInsecure :: r.1, r.2)
        | .error e => ([.pull model allowInsecure], .error e)

/-- The provisioning phase of `internal_run` (src/proc.rs lines 192-212):
one `list_local_models` call (whose failure aborts startup via `?`), then the
pull loop over the required models. -/
def internal_run_provision (ollama : Ollama MInfo GReq EReq Emb)
    (models : List String) (allowInsecure : Bool) :
    List ProvisionEvent × Except String Unit :=
  match ollama.list_local_models with
  | .error e => ([.listModels], .error e)
  | .ok localModels =>
      let r := pullMissingModels ollama.pull_model localModels allowInsecure models
      (.listModels :: r.1, r.2)

/-! ## Telemetry (src/proc.rs lines 226-238 and 307-343, 373-375) -/

/-- One OpenTelemetry emission: a counter `add` or a histogram `record`, with
the instrument name, the value, and the ordered `KeyValue` attribute list. -/
inductive Metric where
  | counterAdd (instrument : String) (value : Nat) (attrs : List (String × String))
  | histRecord (instrument : String) (value : Nat) (attrs : List (String × String))
deriving DecidableEq, Repr

def promptTokenInstrument : String := "prosa_ollama_prompt_token_count"

def genTokenInstrument : String := "prosa_ollama_gen_token_count"

def tokenHistogramInstrument : String := "prosa_ollama_token_histogram"

/-- The telemetry block of the successful-`Generate` branch (src/proc.rs lines
308-343), in source order: optional prompt-token and generated-token counter
adds, then the four optional duration histogram records, each duration divided
by 1000000 (nanoseconds to milliseconds) and tagged with a duration kind and
the response's model name. -/
def generateMetrics (response : GenerationResponse) : List Metric :=
  (match response.prompt_eval_count with
   | some c => [Metric.counterAdd promptTokenInstrument c
       [("type", "gen"), ("model", response.model)]]
   | none => [])
  ++ (match response.eval_count with
   | some c => [Metric.counterAdd genTokenInstrument c
       [("type", "gen"), ("model", response.model)]]
   | none => [])
  ++ (match response.total_duration with
   | some d => [Metric.histRecord tokenHistogramInstrument (d / 1000000)
       [("type", "total"), ("model", response.model)]]
   | none => [])
  ++ (match response.load_duration with
   | some d => [Metric.histRecord tokenHistogramInstrument (d / 1000000)
       [("type", "load"), ("model", response.model)]]
   | none => [])
  ++ (match response.prompt_eval_duration with
   | some d => [Metric.histRecord tokenHistogramInstrument (d / 1000000)
       [("type", "prompt"), ("model", response.model)]]
   | none => [])
  ++ (match response.eval_duration with
   | some d => [Metric.histRecord tokenHistogramInstrument (d / 1000000)
       [("type", "eval"), ("model", response.model)]]
   | none => [])

/-- The single telemetry emission of the successful-`GenerateEmbeddings`
branch (src/proc.rs lines 373-375): the number of embedding vectors added to
the generated-token counter, tagged only with the embedding operation kind. -/
def embeddingsMetrics (response : GenerateEmbeddingsResponse Emb) : List Metric :=
  [Metric.counterAdd genTokenInstrument response.embeddings.length [("type", "embed")]]

/-! ## Dispatch loop (src/proc.rs lines 240-427) -/

/-- A facade operation invoked by the dispatch loop. -/
inductive FacadeCall (GReq EReq : Type) where
  | listModels
  | modelInfo (name : String)
  | generate (request : GReq)
  | generateEmbeddings (request : EReq)
deriving DecidableEq, Repr

/-- A reply sent to the original sender: `return_to_sender` with a translated
payload, or `return_error_to_sender` with a `ServiceError`. -/
inductive Reply (M : Type) where
  | success (payload : M)
  | error (fault : ServiceError)
deriving DecidableEq, Repr

/-- One observable effect of the dispatch loop, in execution order: a facade
call, a telemetry emission, an adaptor translation call, a reply, the adaptor
teardown, or the bus deregistration (`remove_proc`). -/
inductive Event (M GReq EReq : Type) where
  | facadeCall (call : FacadeCall GReq EReq)
  | metric (m : Metric)
  | inboundTranslate
  | outboundTranslate
  | reply (r : Reply M)
  | terminate
  | removeProc
deriving DecidableEq, Repr

def Event.isFacadeCall : Event M GReq EReq → Bool
  | .facadeCall _ => true
  | _ => false

def Event.isReply : Event M GReq EReq → Bool
  | .reply _ => true
  | _ => false

def Event.isSuccessReply : Event M GReq EReq → Bool
  | .reply (.success _) => true
  | _ => false

def Event.isOutboundTranslate : Event M GReq EReq → Bool
  | .outboundTranslate => true
  | _ => false

/-- The inbound bus message type (`prosa::core::msg::InternalMsg`, external
collaborator), with the payload data the dispatch loop extracts: a request
carries its service name and the optional data returned by `take_data`; a
service-table message carries the new table (abstract type `Θ`). -/
inductive InternalMsg (M Θ : Type) where
  | request (service : String) (data : Option M)
  | response
  | error
  | command
  | config
  | service (table : Θ)
  | shutdown
deriving DecidableEq, Repr

/-- How one loop iteration ends: continue with the (possibly updated) adaptor
and service table, return `Ok(())` from `internal_run`, or panic
(`panic!` on `Response`/`Error`, `todo!` on `Command`/`Config`). -/
inductive StepExit (A Θ : Type) where
  | next (adaptor : A) (table : Θ)
  | exitOk (adaptor : A)
  | panicked
deriving DecidableEq, Repr

/-- The `Request` arm with present data (src/proc.rs lines 244-404): translate
inbound, dispatch on the `OllamaRequest` variant to exactly one facade call,
emit telemetry on `Generate`/`GenerateEmbeddings` success, translate outbound
on facade success, and answer with `return_to_sender` or
`return_error_to_sender`.  Returns the ordered event trace and the adaptor
state after the iteration. -/
def handleRequest (ollama : Ollama MInfo GReq EReq Emb)
    (adOps : OllamaAdaptor A M MInfo GReq EReq Emb Chat)
    (adaptor : A) (service : String) (data : M) :
    List (Event M GReq EReq) × A :=
  let tr := adOps.process_request adaptor service data
  match tr.2 with
  | .error e =>
      ([.inboundTranslate, .reply (.error (serviceErrorOfOllamaError e))], tr.1)
  | .ok .listLocalModels =>
      match ollama.list_local_models with
      | .ok localModel =>
          let out := adOps.process_ollama_response tr.1 (.localModels localModel)
          match out.2 with
          | .ok resp =>
              ([.inboundTranslate, .facadeCall .listModels, .outboundTranslate,
                .reply (.success resp)], out.1)
          | .error e =>
              ([.inboundTranslate, .facadeCall .listModels, .outboundTranslate,
                .reply (.error (serviceErrorOfOllamaError e))], out.1)
      | .error e =>
          ([.inboundTranslate, .facadeCall .listModels,
            .reply (.error (serviceErrorOfOllamaError (.ollama e)))], tr.1)
  | .ok (.modelInfo modelName) =>
      match ollama.show_model_info modelName with
      | .ok modelInfo =>
          let out := adOps.process_ollama_response tr.1 (.modelInfo modelInfo)
          match out.2 with
          | .ok resp =>
              ([.inboundTranslate, .facadeCall (.modelInfo modelName),
                .outboundTranslate, .reply (.success resp)], out.1)
          | .error e =>
              ([.inboundTranslate, .facadeCall (.modelInfo modelName),
                .outboundTranslate,
                .reply (.error (serviceErrorOfOllamaError e))], out.1)
      | .error e =>
          ([.inboundTranslate, .facadeCall (.modelInfo modelName),
            .reply (.error (serviceErrorOfOllamaError (.ollama e)))], tr.1)
  | .ok (.generateRequest request) =>
      match ollama.generate request with
      | .ok response =>
          let out := adOps.process_ollama_response tr.1 (.generateResponse response)
          match out.2 with
          | .ok resp =>
              (.inboundTranslate :: .facadeCall (.generate request) ::
                ((generateMetrics response).map .metric
                  ++ [.outboundTranslate, .reply (.success resp)]), out.1)
          | .error e =>
              (.inboundTranslate :: .facadeCall (.generate request) ::
                ((generateMetrics response).map .metric
                  ++ [.outboundTranslate,
                      .reply (.error (serviceErrorOfOllamaError e))]), out.1)
      | .error e =>
          ([.inboundTranslate, .facadeCall (.generate request),
            .reply (.error (serviceErrorOfOllamaError (.ollama e)))], tr.1)
  | .ok (.generateEmbeddingsRequest embeddingsRequest) =>
      match ollama.generate_embeddings embeddingsRequest with
      | .ok response =>
          let out := adOps.process_ollama_response tr.1
            (.generateEmbeddingsResponse response)
          match out.2 with
          | .ok resp =>
              (.inboundTranslate :: .facadeCall (.generateEmbeddings embeddingsRequest) ::
                ((embeddingsMetrics response).map .metric
                  ++ [.outboundTranslate, .reply (.success resp)]), out.1)
          | .error e =>
              (.inboundTranslate :: .facadeCall (.generateEmbeddings embeddingsRequest) ::
                ((embeddingsMetrics response).map .metric
                  ++ [.outboundTranslate,
                      .reply (.error (serviceErrorOfOllamaError e))]), out.1)
      | .error e =>
          ([.inboundTranslate, .facadeCall (.generateEmbeddings embeddingsRequest),
            .reply (.error (serviceErrorOfOllamaError (.ollama e)))], tr.1)

/-- One iteration of the `loop` of `internal_run` (src/proc.rs lines 240-426)
on one received message: the `match msg` over the `InternalMsg` kinds.  A
`Request` whose `take_data` is `None` falls through the `if let` with no
effect; `Response`/`Error` panic; `Command`/`Config` hit `todo!`; `Service`
replaces the table; `Shutdown` terminates the adaptor, deregisters and makes
`internal_run` return `Ok(())`. -/
def internal_run_step (ollama : Ollama MInfo GReq EReq Emb)
    (adOps : OllamaAdaptor A M MInfo GReq EReq Emb Chat)
    (adaptor : A) (table : Θ) :
    InternalMsg M Θ → List (Event M GReq EReq) × StepExit A Θ
  | .request service (some data) =>
      let r := handleRequest ollama adOps adaptor service data
      (r.1, .next r.2 table)
  | .request _ none => ([], .next adaptor table)
  | .response => ([], .panicked)
  | .error => ([], .panicked)
  | .command => ([], .panicked)
  | .config => ([], .panicked)
  | .service t => ([], .next adaptor t)
  | .shutdown =>
      ([.terminate, .removeProc], .exitOk (adOps.terminate adaptor))

/-- How a run of the dispatch loop over a finite inbound queue ends: the queue
was exhausted with the loop still awaiting messages, `internal_run` returned
`Ok(())`, or a panic occurred. -/
inductive RunOutcome (A Θ : Type) where
  | pending (adaptor : A) (table : Θ)
  | returnedOk (adaptor : A)
  | panicked
deriving DecidableEq, Repr

/-- The dispatch loop run over a finite list of inbound messages, threading
the adaptor and service table and concatenating the event traces in order. -/
def internal_run_loop (ollama : Ollama MInfo GReq EReq Emb)
    (adOps : OllamaAdaptor A M MInfo GReq EReq Emb Chat)
    (adaptor : A) (table : Θ) :
    List (InternalMsg M Θ) → List (Event M GReq EReq) × RunOutcome A Θ
  | [] => ([], .pending adaptor table)
  | msg :: rest =>
      let r := internal_run_step ollama adOps adaptor table msg
      match r.2 with
      | .next adaptor' table' =>
          let rr := internal_run_loop ollama adOps adaptor' table' rest
          (r.1 ++ rr.1, rr.2)
      | .exitOk adaptor' => (r.1, .returnedOk adaptor')
      | .panicked => (r.1, .panicked)

/-! ## Statement-side helpers -/

/-- The spec's variant-to-operation table (§4.2 Invoking): `ListModels` →
`listModels`, `ModelInfo` → `modelInfo`, `Generate` → `generate`,
`GenerateEmbeddings` → `generateEmbeddings`. -/
def facadeCallOf : OllamaRequest GReq EReq → FacadeCall GReq EReq
  | .listLocalModels => .listModels
  | .modelInfo name => .modelInfo name
  | .generateRequest request => .generate request
  | .generateEmbeddingsRequest request => .generateEmbeddings request

/-- The error, if any, the facade returns for the operation a given
`OllamaRequest` dispatches to. -/
def facadeError (ollama : Ollama MInfo GReq EReq Emb) :
    OllamaRequest GReq EReq → Option String
  | .listLocalModels =>
      match ollama.list_local_models with
      | .error e => some e
      | .ok _ => none
  | .modelInfo name =>
      match ollama.show_model_info name with
      | .error e => some e
      | .ok _ => none
  | .generateRequest request =>
      match ollama.generate request with
      | .error e => some e
      | .ok _ => none
  | .generateEmbeddingsRequest request =>
      match ollama.generate_embeddings request with
      | .error e => some e
      | .ok _ => none

/-- Selects the emissions of the counter with the given instrument name. -/
def counterMetric (instrument : String) : Metric → Bool
  | .counterAdd name _ _ => name == instrument
  | .histRecord _ _ _ => false

/-- Selects the histogram records whose `type` attribute is the given
duration kind. -/
def histKindMetric (kind : String) : Metric → Bool
  | .histRecord _ _ attrs => attrs.lookup "type" == some kind
  | .counterAdd _ _ _ => false

/-! ## Concrete instantiations used by the closed witnesses.  All abstract
payload types are `Unit` and the bus message type is `Nat`. -/

/-- A healthy backend whose local inventory is `locals` and whose calls all
succeed. -/
def ollamaC (locals : List LocalModel) : Ollama Unit Unit Unit Unit where
  list_local_models := .ok locals
  show_model_info := fun _ => .ok ()
  generate := fun _ =>
    .ok ⟨"llama3", "hello", some 1, some 2, some 3, some 4, some 5, some 6⟩
  generate_embeddings := fun _ => .ok ⟨[(), ()]⟩
  pull_model := fun _ _ => .ok "success"

/-- A backend every call of which fails with a connectivity error. -/
def ollamaFailC : Ollama Unit Unit Unit Unit where
  list_local_models := .error "connection refused"
  show_model_info := fun _ => .error "connection refused"
  generate := fun _ => .error "connection refused"
  generate_embeddings := fun _ => .error "connection refused"
  pull_model := fun _ _ => .error "connection refused"

/-- A trivial adaptor that translates every inbound message to the
list-models operation. -/
def adaptorC : OllamaAdaptor Unit Nat Unit Unit Unit Unit Unit where
  process_request := fun a _ _ => (a, .ok .listLocalModels)
  process_ollama_response := fun a _ => (a, .ok 0)
  terminate := fun a => a

/-- A trivial adaptor that translates every inbound message to a
`ModelInfo("llama3")` operation. -/
def adaptorInfoC : OllamaAdaptor Unit Nat Unit Unit Unit Unit Unit where
  process_request := fun a _ _ => (a, .ok (.modelInfo "llama3"))
  process_ollama_response := fun a _ => (a, .ok 0)
  terminate := fun a => a

/-! ## Theorems -/

/-- C2, counterexample: the claim says the `Other` variant maps to the bus's
generic free-text fault, but `From<OllamaError> for ServiceError`
(src/proc.rs line 49) sends `OllamaError::Other` to
`ServiceError::UnableToReachService`, not to the generic variant. -/
theorem C2_counterexample :
    serviceErrorOfOllamaError (OllamaError.other "boom")
      = ServiceError.unableToReachService "boom" ∧
    serviceErrorOfOllamaError (OllamaError.other "boom")
      ≠ ServiceError.genericError "boom" := by
  exact ⟨rfl, by decide⟩

/-- C2 (amended): the conversion from `OllamaError` to `ServiceError` is total
and structural: the backend (`Ollama`) variant maps to the service-unreachable
fault, the invalid-header-value variant maps to the protocol fault, and the
`Other` variant also maps to the service-unreachable fault carrying its
free-text detail; every value of the mapping is one of these two fault
kinds. -/
theorem C2_error_mapping (s : String) :
    serviceErrorOfOllamaError (.ollama s) = .unableToReachService s ∧
    serviceErrorOfOllamaError (.invalidHeaderValue s) = .protocolError s ∧
    serviceErrorOfOllamaError (.other s) = .unableToReachService s ∧
    ∀ e : OllamaError,
      (∃ t, serviceErrorOfOllamaError e = .unableToReachService t) ∨
      (∃ t, serviceErrorOfOllamaError e = .protocolError t) := by
  refine ⟨rfl, rfl, rfl, ?_⟩
  intro e
  cases e with
  | ollama t => exact Or.inl ⟨t, rfl⟩
  | invalidHeaderValue t => exact Or.inr ⟨t, rfl⟩
  | other t => exact Or.inl ⟨t, rfl⟩

/-- C7: `get_ollama` derives the `Authorization` header exclusively from
URL-embedded credentials: no password means no header; a password with an
empty username yields the bearer form `Bearer <password>`; a password with a
non-empty username yields the basic form `Basic <base64(username:password)>`
(whenever the built value is a legal header value). -/
theorem C7_authorization (username password : String)
    (hbearer : isValidHeaderValue ("Bearer " ++ password) = true)
    (hbasic : isValidHeaderValue
      ("Basic " ++ base64Encode (username ++ ":" ++ password)) = true)
    (huser : username ≠ "") :
    get_ollama_auth ⟨username, none⟩ = .ok none ∧
    get_ollama_auth ⟨"", some password⟩ = .ok (some ("Bearer " ++ password)) ∧
    get_ollama_auth ⟨username, some password⟩
      = .ok (some ("Basic " ++ base64Encode (username ++ ":" ++ password))) := by
  refine ⟨rfl, ?_, ?_⟩
  · simp [get_ollama_auth, hbearer]
  · simp [get_ollama_auth, huser, hbasic]

/-- C7, closed witness: concrete bearer and basic headers. -/
theorem C7_authorization_witness :
    get_ollama_auth ⟨"", some "pass"⟩ = .ok (some ("Bearer " ++ "pass")) ∧
    get_ollama_auth ⟨"user", some "pass"⟩
      = .ok (some ("Basic " ++ base64Encode ("user" ++ ":" ++ "pass"))) :=
  (C7_authorization "user" "pass" (by decide) (by decide) (by decide)).2

/-- C8: with no configured endpoint, `default_url` takes the first set
environment variable among `OLLAMA_HOST` and `OLLAMA_URL` (first-match-wins),
falls back to `http://localhost:11434` when neither is set or the chosen value
does not parse, and always resolves to a valid base URL (either the parse
oracle's output or the hard-coded localhost constant). -/
theorem C8_default_url (parseUrl : String → Option Url) (h u : String)
    (ho hu : Option String) :
    default_url parseUrl none none = localhostUrl ∧
    default_url parseUrl (some h) hu = (parseUrl h).getD localhostUrl ∧
    default_url parseUrl none (some u) = (parseUrl u).getD localhostUrl ∧
    (default_url parseUrl ho hu = localhostUrl ∨
      ∃ s, parseUrl s = some (default_url parseUrl ho hu)) := by
  refine ⟨rfl, rfl, rfl, ?_⟩
  cases ho with
  | some h' =>
      cases hp : parseUrl h' with
      | some v => exact Or.inr ⟨h', by simp [default_url, Option.or, hp]⟩
      | none => exact Or.inl (by simp [default_url, Option.or, hp])
  | none =>
      cases hu with
      | some u' =>
          cases hp : parseUrl u' with
          | some v => exact Or.inr ⟨u', by simp [default_url, Option.or, hp]⟩
          | none => exact Or.inl (by simp [default_url, Option.or, hp])
      | none => exact Or.inl rfl

/-- Helper: when every pull succeeds, the pull loop issues exactly one pull,
with the configured insecure flag, for each required model (in order) whose
name no local model matches exactly, and succeeds. -/
theorem pullMissingModels_ok (pullModel : String → Bool → Except String String)
    (locals : List LocalModel) (flag : Bool) (models : List String)
    (hpull : ∀ m b, (pullModel m b).isOk = true) :
    pullMissingModels pullModel locals flag models
      = ((models.filter
            (fun m => ! locals.any (fun lm => lm.name == m))).map
          (fun m => ProvisionEvent.pull m flag), Except.ok ()) := by
  induction models with
  | nil => rfl
  | cons m rest ih =>
      by_cases hm : locals.any (fun lm => lm.name == m)
      · simp only [pullMissingModels, hm, if_pos, List.filter_cons, Bool.not_eq_true',
          hm, ih]
        simp [hm]
      · have : ∃ s, pullModel m flag = .ok s := by
          cases hp : pullModel m flag with
          | ok s => exact ⟨s, rfl⟩
          | error e =>
              have := hpull m flag
              rw [hp] at this
              simp [Except.isOk, Except.toBool] at this
        obtain ⟨s, hs⟩ := this
        simp only [pullMissingModels, hm, if_neg, hs, ih]
        simp [hm]

/-- C3: with a reachable backend whose initial inventory is `locals` and whose
pulls succeed, startup provisioning performs exactly one list call followed by
exactly one pull (with the configured allow-insecure flag) for each required
model absent from the inventory, in order, and no pull for a present model; an
empty required list issues no pull but still the one list call. -/
theorem C3_provisioning (ollama : Ollama MInfo GReq EReq Emb)
    (models : List String) (flag : Bool) (locals : List LocalModel)
    (hlist : ollama.list_local_models = .ok locals)
    (hpull : ∀ m b, (ollama.pull_model m b).isOk = true) :
    (internal_run_provision ollama models flag).1
      = ProvisionEvent.listModels ::
          ((models.filter
              (fun m => ! locals.any (fun lm => lm.name == m))).map
            (fun m => ProvisionEvent.pull m flag)) ∧
    ((internal_run_provision ollama models flag).1.countP
        ProvisionEvent.isList) = 1 ∧
    (models = [] →
      (internal_run_provision ollama models flag).1 = [ProvisionEvent.listModels]) := by
  have htrace : (internal_run_provision ollama models flag).1
      = ProvisionEvent.listModels ::
          ((models.filter
              (fun m => ! locals.any (fun lm => lm.name == m))).map
            (fun m => ProvisionEvent.pull m flag)) := by
    simp [internal_run_provision, hlist,
      pullMissingModels_ok ollama.pull_model locals flag models hpull]
  refine ⟨htrace, ?_, ?_⟩
  · rw [htrace]
    simp only [List.countP_cons]
    have : ∀ l : List String,
        ((l.map (fun m => ProvisionEvent.pull m flag)).countP ProvisionEvent.isList) = 0 := by
      intro l
      induction l with
      | nil => rfl
      | cons a t iht => simp [List.countP_cons, ProvisionEvent.isList, iht]
    simp [this, ProvisionEvent.isList]
  · intro hmodels
    rw [htrace, hmodels]
    rfl

/-- C3, closed witness: the spec's concrete scenario — required `["llama3"]`,
inventory `["mistral"]` — issues one list call and exactly one pull, for
`llama3`. -/
theorem C3_provisioning_witness :
    (internal_run_provision (ollamaC [⟨"mistral"⟩]) ["llama3"] false).1
      = [ProvisionEvent.listModels, ProvisionEvent.pull "llama3" false] := by
  have h := C3_provisioning (ollamaC [⟨"mistral"⟩]) ["llama3"] false [⟨"mistral"⟩]
    rfl (fun m b => rfl)
  rw [h.1]
  rfl

/-- C10: under the same reachable backend, a required model is skipped only on
a full-string name match: the pull for `m` is issued exactly when `m` is
required and no local model's name is string-equal to `m` in its entirety. -/
theorem C10_exact_match (ollama : Ollama MInfo GReq EReq Emb)
    (models : List String) (flag : Bool) (locals : List LocalModel)
    (hlist : ollama.list_local_models = .ok locals)
    (hpull : ∀ m b, (ollama.pull_model m b).isOk = true) (m : String) :
    ProvisionEvent.pull m flag ∈ (internal_run_provision ollama models flag).1
      ↔ (m ∈ models ∧ ∀ lm ∈ locals, lm.name ≠ m) := by
  have htrace : (internal_run_provision ollama models flag).1
      = ProvisionEvent.listModels ::
          ((models.filter
              (fun m => ! locals.any (fun lm => lm.name == m))).map
            (fun m => ProvisionEvent.pull m flag)) := by
    simp [internal_run_provision, hlist,
      pullMissingModels_ok ollama.pull_model locals flag models hpull]
  rw [htrace]
  simp only [List.mem_cons, List.mem_map, List.mem_filter, Bool.not_eq_true']
  constructor
  · rintro (h | ⟨a, ⟨ha, hp⟩, heq⟩)
    · exact absurd h (by simp)
    · have ham : a = m := by
        have := congrArg (fun e => match e with
          | ProvisionEvent.pull x _ => x
          | ProvisionEvent.listModels => "") heq
        simpa using this
      subst ham
      refine ⟨ha, ?_⟩
      intro lm hlm hname
      have : locals.any (fun lm => lm.name == a) = true :=
        List.any_eq_true.mpr ⟨lm, hlm, by simp [hname]⟩
      rw [this] at hp
      exact absurd hp (by simp)
  · rintro ⟨hm, hnone⟩
    refine Or.inr ⟨m, ⟨hm, ?_⟩, rfl⟩
    by_contra hany
    have := List.any_eq_true.mp (Bool.not_eq_false _ |>.mp hany)
    obtain ⟨lm, hlm, hname⟩ := this
    exact hnone lm hlm (by simpa using hname)

/-- C10, closed witness: required `"llama3"` against local `"llama3:latest"`
is not a match, so the pull for `llama3` is issued. -/
theorem C10_exact_match_witness :
    ProvisionEvent.pull "llama3" false
      ∈ (internal_run_provision (ollamaC [⟨"llama3:latest"⟩]) ["llama3"] false).1 := by
  refine (C10_exact_match (ollamaC [⟨"llama3:latest"⟩]) ["llama3"] false
    [⟨"llama3:latest"⟩] rfl (fun m b => rfl) "llama3").mpr ?_
  refine ⟨by simp, ?_⟩
  intro lm hlm
  simp only [List.mem_singleton] at hlm
  subst hlm
  decide


/-- Helper: telemetry events are not replies. -/
theorem countP_isReply_metricMap (l : List Metric) :
    ((l.map (fun m => (Event.metric m : Event M GReq EReq))).countP
      Event.isReply) = 0 := by
  induction l with
  | nil => rfl
  | cons a t ih => simp [List.countP_cons, Event.isReply, ih]

/-- C1, counterexample: the claim extends the one-reply guarantee to a
`Request` whose data payload is absent, but the dispatch loop's
`if let Some(data) = msg.take_data()` (src/proc.rs line 244) has no else arm:
on a concrete `Request` with no data the iteration produces no event at all —
in particular no reply — and silently continues. -/
theorem C1_counterexample :
    internal_run_step (ollamaC []) adaptorC () ()
        (InternalMsg.request "svc" (none : Option Nat))
      = ([], StepExit.next () ()) ∧
    ((internal_run_step (ollamaC []) adaptorC () ()
        (InternalMsg.request "svc" (none : Option Nat))).1.countP Event.isReply) = 0 :=
  ⟨rfl, rfl⟩

/-- C1 (amended): for every inbound `Request` envelope whose data payload is
present, the dispatch iteration sends exactly one reply — success or error —
to the original sender, for every adaptor and backend behavior; a `Request`
whose payload is absent produces no effect (it is dropped silently). -/
theorem C1_exactly_one_reply (ollama : Ollama MInfo GReq EReq Emb)
    (adOps : OllamaAdaptor A M MInfo GReq EReq Emb Chat)
    (adaptor : A) (table : Θ) (service : String) (data : M) :
    ((internal_run_step ollama adOps adaptor table
        (.request service (some data))).1.countP Event.isReply) = 1 ∧
    (internal_run_step ollama adOps adaptor table
        (.request service none)).1 = [] := by
  refine ⟨?_, rfl⟩
  show ((handleRequest ollama adOps adaptor service data).1.countP Event.isReply) = 1
  unfold handleRequest
  cases htr : (adOps.process_request adaptor service data).2 with
  | error e => simp [htr, List.countP_cons, Event.isReply]
  | ok req =>
      cases req with
      | listLocalModels =>
          cases hf : ollama.list_local_models with
          | ok lm =>
              cases hout : (adOps.process_ollama_response
                  (adOps.process_request adaptor service data).1
                  (.localModels lm)).2 with
              | ok resp => simp [htr, hf, hout, List.countP_cons, Event.isReply]
              | error e => simp [htr, hf, hout, List.countP_cons, Event.isReply]
          | error e => simp [htr, hf, List.countP_cons, Event.isReply]
      | modelInfo name =>
          cases hf : ollama.show_model_info name with
          | ok info =>
              cases hout : (adOps.process_ollama_response
                  (adOps.process_request adaptor service data).1
                  (.modelInfo info)).2 with
              | ok resp => simp [htr, hf, hout, List.countP_cons, Event.isReply]
              | error e => simp [htr, hf, hout, List.countP_cons, Event.isReply]
          | error e => simp [htr, hf, List.countP_cons, Event.isReply]
      | generateRequest request =>
          cases hf : ollama.generate request with
          | ok response =>
              cases hout : (adOps.process_ollama_response
                  (adOps.process_request adaptor service data).1
                  (.generateResponse response)).2 with
              | ok resp =>
                  simp [htr, hf, hout, List.countP_cons, List.countP_append,
                    Event.isReply, countP_isReply_metricMap]
              | error e =>
                  simp [htr, hf, hout, List.countP_cons, List.countP_append,
                    Event.isReply, countP_isReply_metricMap]
          | error e => simp [htr, hf, List.countP_cons, Event.isReply]
      | generateEmbeddingsRequest request =>
          cases hf : ollama.generate_embeddings request with
          | ok response =>
              cases hout : (adOps.process_ollama_response
                  (adOps.process_request adaptor service data).1
                  (.generateEmbeddingsResponse response)).2 with
              | ok resp =>
                  simp [htr, hf, hout, List.countP_cons, List.countP_append,
                    Event.isReply, countP_isReply_metricMap]
              | error e =>
                  simp [htr, hf, hout, List.countP_cons, List.countP_append,
                    Event.isReply, countP_isReply_metricMap]
          | error e => simp [htr, hf, List.countP_cons, Event.isReply]

/-- Helper: telemetry events are not facade calls. -/
theorem filter_isFacadeCall_metricMap (l : List Metric) :
    ((l.map (fun m => (Event.metric m : Event M GReq EReq))).filter
      Event.isFacadeCall) = [] := by
  induction l with
  | nil => rfl
  | cons a t ih => simp [List.filter_cons, Event.isFacadeCall, ih]

/-- C4: whenever the adaptor translates an inbound request successfully, the
dispatch iteration performs exactly one facade call, and it is the one
determined by the `OllamaRequest` variant (`ListModels` → `listModels`,
`ModelInfo` → `modelInfo`, `Generate` → `generate`, `GenerateEmbeddings` →
`generateEmbeddings`) — never zero, never more than one, whatever the facade
and outbound translation then do. -/
theorem C4_one_facade_call (ollama : Ollama MInfo GReq EReq Emb)
    (adOps : OllamaAdaptor A M MInfo GReq EReq Emb Chat)
    (adaptor : A) (table : Θ) (service : String) (data : M)
    (ad' : A) (req : OllamaRequest GReq EReq)
    (h : adOps.process_request adaptor service data = (ad', Except.ok req)) :
    ((internal_run_step ollama adOps adaptor table
        (.request service (some data))).1.filter Event.isFacadeCall)
      = [Event.facadeCall (facadeCallOf req)] := by
  show ((handleRequest ollama adOps adaptor service data).1.filter
      Event.isFacadeCall) = [Event.facadeCall (facadeCallOf req)]
  unfold handleRequest
  rw [h]
  cases req with
  | listLocalModels =>
      cases hf : ollama.list_local_models with
      | ok lm =>
          cases hout : (adOps.process_ollama_response ad' (.localModels lm)).2 with
          | ok resp => simp [hf, hout, List.filter_cons, Event.isFacadeCall, facadeCallOf]
          | error e => simp [hf, hout, List.filter_cons, Event.isFacadeCall, facadeCallOf]
      | error e => simp [hf, List.filter_cons, Event.isFacadeCall, facadeCallOf]
  | modelInfo name =>
      cases hf : ollama.show_model_info name with
      | ok info =>
          cases hout : (adOps.process_ollama_response ad' (.modelInfo info)).2 with
          | ok resp => simp [hf, hout, List.filter_cons, Event.isFacadeCall, facadeCallOf]
          | error e => simp [hf, hout, List.filter_cons, Event.isFacadeCall, facadeCallOf]
      | error e => simp [hf, List.filter_cons, Event.isFacadeCall, facadeCallOf]
  | generateRequest request =>
      cases hf : ollama.generate request with
      | ok response =>
          cases hout : (adOps.process_ollama_response ad'
              (.generateResponse response)).2 with
          | ok resp =>
              simp [hf, hout, List.filter_cons, List.filter_append,
                Event.isFacadeCall, facadeCallOf, filter_isFacadeCall_metricMap]
          | error e =>
              simp [hf, hout, List.filter_cons, List.filter_append,
                Event.isFacadeCall, facadeCallOf, filter_isFacadeCall_metricMap]
      | error e => simp [hf, List.filter_cons, Event.isFacadeCall, facadeCallOf]
  | generateEmbeddingsRequest request =>
      cases hf : ollama.generate_embeddings request with
      | ok response =>
          cases hout : (adOps.process_ollama_response ad'
              (.generateEmbeddingsResponse response)).2 with
          | ok resp =>
              simp [hf, hout, List.filter_cons, List.filter_append,
                Event.isFacadeCall, facadeCallOf, filter_isFacadeCall_metricMap]
          | error e =>
              simp [hf, hout, List.filter_cons, List.filter_append,
                Event.isFacadeCall, facadeCallOf, filter_isFacadeCall_metricMap]
      | error e => simp [hf, List.filter_cons, Event.isFacadeCall, facadeCallOf]

/-- C4, closed witness: a concrete translated `ListModels` request triggers
the single `listModels` facade call. -/
theorem C4_one_facade_call_witness :
    ((internal_run_step (ollamaC []) adaptorC () ()
        (InternalMsg.request "svc" (some 7))).1.filter Event.isFacadeCall)
      = [Event.facadeCall (facadeCallOf OllamaRequest.listLocalModels)] :=
  C4_one_facade_call (ollamaC []) adaptorC () () "svc" 7 ()
    OllamaRequest.listLocalModels rfl

/-- C5: when the adaptor translation succeeds and the dispatched facade call
fails with backend error `e`, the iteration's whole trace is: the inbound
translation, the one facade call, and a single error reply whose fault is the
§4.4 structural mapping of `OllamaError::Ollama(e)` (a service-unreachable
fault) — the outbound translation is never invoked and no success reply is
sent. -/
theorem C5_facade_failure (ollama : Ollama MInfo GReq EReq Emb)
    (adOps : OllamaAdaptor A M MInfo GReq EReq Emb Chat)
    (adaptor : A) (table : Θ) (service : String) (data : M)
    (ad' : A) (req : OllamaRequest GReq EReq) (e : String)
    (h : adOps.process_request adaptor service data = (ad', Except.ok req))
    (hf : facadeError ollama req = some e) :
    (internal_run_step ollama adOps adaptor table
        (.request service (some data))).1
      = [Event.inboundTranslate, Event.facadeCall (facadeCallOf req),
         Event.reply (.error (serviceErrorOfOllamaError (.ollama e)))] := by
  show (handleRequest ollama adOps adaptor service data).1
      = [Event.inboundTranslate, Event.facadeCall (facadeCallOf req),
         Event.reply (.error (serviceErrorOfOllamaError (.ollama e)))]
  unfold handleRequest
  rw [h]
  cases req with
  | listLocalModels =>
      cases hc : ollama.list_local_models with
      | ok lm => rw [facadeError, hc] at hf; exact absurd hf (by simp)
      | error e' =>
          rw [facadeError, hc] at hf
          simp only [Option.some.injEq] at hf
          subst hf
          simp [hc, facadeCallOf]
  | modelInfo name =>
      cases hc : ollama.show_model_info name with
      | ok info => rw [facadeError, hc] at hf; exact absurd hf (by simp)
      | error e' =>
          rw [facadeError, hc] at hf
          simp only [Option.some.injEq] at hf
          subst hf
          simp [hc, facadeCallOf]
  | generateRequest request =>
      cases hc : ollama.generate request with
      | ok response => rw [facadeError, hc] at hf; exact absurd hf (by simp)
      | error e' =>
          rw [facadeError, hc] at hf
          simp only [Option.some.injEq] at hf
          subst hf
          simp [hc, facadeCallOf]
  | generateEmbeddingsRequest request =>
      cases hc : ollama.generate_embeddings request with
      | ok response => rw [facadeError, hc] at hf; exact absurd hf (by simp)
      | error e' =>
          rw [facadeError, hc] at hf
          simp only [Option.some.injEq] at hf
          subst hf
          simp [hc, facadeCallOf]

/-- C5, closed witness: the spec's concrete scenario — a `ModelInfo("llama3")`
request against a backend failing with a connectivity error — yields exactly
one error reply carrying the service-unreachable fault. -/
theorem C5_facade_failure_witness :
    (internal_run_step ollamaFailC adaptorInfoC () ()
        (InternalMsg.request "svc" (some 7))).1
      = [Event.inboundTranslate, Event.facadeCall (FacadeCall.modelInfo "llama3"),
         Event.reply (Reply.error (ServiceError.unableToReachService "connection refused"))] := by
  have h := C5_facade_failure ollamaFailC adaptorInfoC () () "svc" 7 ()
    (OllamaRequest.modelInfo "llama3") "connection refused" rfl rfl
  simpa [facadeCallOf, serviceErrorOfOllamaError] using h

/-- C6: for every successful `Generate` response, each present optional field
produces exactly one telemetry emission and each absent field none: a present
prompt-token count (resp. generated-token count) produces the single add on
the prompt-token (resp. generated-token) counter with value the count, tagged
`type=gen` and with the model name; each present duration produces the single
histogram record of its kind (`total`/`load`/`prompt`/`eval`), with the value
divided by 1000000 (nanoseconds to milliseconds) and tagged with the model
name. -/
theorem C6_generate_telemetry (response : GenerationResponse) :
    ((generateMetrics response).filter (counterMetric promptTokenInstrument))
      = (response.prompt_eval_count.map (fun c =>
          Metric.counterAdd promptTokenInstrument c
            [("type", "gen"), ("model", response.model)])).toList ∧
    ((generateMetrics response).filter (counterMetric genTokenInstrument))
      = (response.eval_count.map (fun c =>
          Metric.counterAdd genTokenInstrument c
            [("type", "gen"), ("model", response.model)])).toList ∧
    ((generateMetrics response).filter (histKindMetric "total"))
      = (response.total_duration.map (fun d =>
          Metric.histRecord tokenHistogramInstrument (d / 1000000)
            [("type", "total"), ("model", response.model)])).toList ∧
    ((generateMetrics response).filter (histKindMetric "load"))
      = (response.load_duration.map (fun d =>
          Metric.histRecord tokenHistogramInstrument (d / 1000000)
            [("type", "load"), ("model", response.model)])).toList ∧
    ((generateMetrics response).filter (histKindMetric "prompt"))
      = (response.prompt_eval_duration.map (fun d =>
          Metric.histRecord tokenHistogramInstrument (d / 1000000)
            [("type", "prompt"), ("model", response.model)])).toList ∧
    ((generateMetrics response).filter (histKindMetric "eval"))
      = (response.eval_duration.map (fun d =>
          Metric.histRecord tokenHistogramInstrument (d / 1000000)
            [("type", "eval"), ("model", response.model)])).toList := by
  obtain ⟨model, resp, pec, ec, td, ld, ped, ed⟩ := response
  cases pec <;> cases ec <;> cases td <;> cases ld <;> cases ped <;> cases ed <;>
    simp [generateMetrics, counterMetric, histKindMetric,
      promptTokenInstrument, genTokenInstrument, tokenHistogramInstrument,
      List.filter_cons, List.filter_append]

/-- C9: once a `Shutdown` envelope is consumed, whatever messages still sit in
the queue are never dispatched — the run over `Shutdown :: rest` is the run of
the shutdown step alone: the adaptor's `terminate` is invoked exactly once,
the processor deregisters (`remove_proc`) before the loop function returns,
and `internal_run` returns `Ok(())`.  Conversely a successful return of the
step (`exitOk`) only ever arises from a `Shutdown` envelope. -/
theorem C9_shutdown (ollama : Ollama MInfo GReq EReq Emb)
    (adOps : OllamaAdaptor A M MInfo GReq EReq Emb Chat)
    (adaptor : A) (table : Θ) (rest : List (InternalMsg M Θ)) :
    internal_run_loop ollama adOps adaptor table (.shutdown :: rest)
      = ([Event.terminate, Event.removeProc],
         .returnedOk (adOps.terminate adaptor)) ∧
    (∀ (msg : InternalMsg M Θ) (events : List (Event M GReq EReq)) (adaptor' : A),
      internal_run_step ollama adOps adaptor table msg = (events, .exitOk adaptor') →
        msg = .shutdown) := by
  constructor
  · rfl
  · intro msg events adaptor' hstep
    cases msg with
    | request service data =>
        cases data with
        | some d =>
            simp only [internal_run_step, Prod.mk.injEq] at hstep
            exact absurd hstep.2 (by simp)
        | none =>
            simp only [internal_run_step, Prod.mk.injEq] at hstep
            exact absurd hstep.2 (by simp)
    | response => simp only [internal_run_step, Prod.mk.injEq] at hstep
                  exact absurd hstep.2 (by simp)
    | error => simp only [internal_run_step, Prod.mk.injEq] at hstep
               exact absurd hstep.2 (by simp)
    | command => simp only [internal_run_step, Prod.mk.injEq] at hstep
                 exact absurd hstep.2 (by simp)
    | config => simp only [internal_run_step, Prod.mk.injEq] at hstep
                exact absurd hstep.2 (by simp)
    | service t => simp only [internal_run_step, Prod.mk.injEq] at hstep
                   exact absurd hstep.2 (by simp)
    | shutdown => rfl

/-- C9, closed witness: with a request still queued behind the shutdown, the
loop returns right after teardown and deregistration, dispatching nothing
further. -/
theorem C9_shutdown_witness :
    internal_run_loop (ollamaC []) adaptorC () ()
        [InternalMsg.shutdown, InternalMsg.request "svc" (some 7)]
      = ([Event.terminate, Event.removeProc], RunOutcome.returnedOk ()) ∧
    (InternalMsg.shutdown : InternalMsg Nat Unit) = InternalMsg.shutdown := by
  have h := C9_shutdown (ollamaC []) adaptorC () () [InternalMsg.request "svc" (some 7)]
  exact ⟨h.1, h.2 InternalMsg.shutdown [Event.terminate, Event.removeProc] () rfl⟩
